import Mathlib

/-!
# Jobly: the `Job` model (`src/models/job.js`)

A shallow embedding of the `Job` data-access class and of the SQL text it builds.

* JavaScript values are the inductive `Value`; numbers are modelled as integers
  (the job columns `id` and `salary` are integers, `equity` is a decimal string).
* The database collaborator `db` (`require("../db")`) is a parameter: a store type `σ`
  and a function `query` from a statement and its parameter list to the rows it returns
  and the next store.  Every statement handed to `db.query` is appended to a log.
  `query` always returns rows, as in the interface `query(sqlText, orderedParams) -> rows`;
  a statement the database rejects is outside the model.
* `async`/`await` is sequential composition: each method awaits every query it issues.
* `sqlForPartialUpdate` (`helpers/sql.js`) is not among the sources and is modelled from the
  specification.
-/

set_option autoImplicit false

namespace Jobly

/-! ## Values -/

/-- JavaScript primitives stored in a column or passed by a caller. -/
inductive Prim where
  | undefined
  | null
  | bool (b : Bool)
  | num (n : Int)
  | str (s : String)
  deriving DecidableEq, Repr

/-- One row of a query result: column name and value, in column order. -/
abbrev Row := List (String × Prim)

/-- A JavaScript value: a primitive, or an object whose properties are primitives
(the rows of a query result). -/
inductive Value where
  | prim (p : Prim)
  | obj (r : Row)
  deriving DecidableEq, Repr

/-- An object: property name and value, in property order. -/
abbrev Obj := List (String × Value)

/-- The value `undefined`. -/
abbrev undef : Value := .prim .undefined

/-- Property read `o.k`: `undefined` when the object has no such property. -/
def Obj.get (o : Obj) (k : String) : Value :=
  match o.lookup k with
  | some v => v
  | none => undef

/-- Statement `delete o.k`. -/
def Obj.delete (o : Obj) (k : String) : Obj :=
  o.filter (fun p => p.1 != k)

/-- Assignment `o.k = v`: an existing property keeps its place, a new one goes last. -/
def Obj.set : Obj → String → Value → Obj
  | [], k, v => [(k, v)]
  | (k', v') :: rest, k, v =>
    if k' = k then (k, v) :: rest else (k', v') :: Obj.set rest k v

/-- A row seen as an object. -/
def Row.toObj (r : Row) : Obj :=
  r.map (fun p => (p.1, Value.prim p.2))

/-- Indexing `rows[0]`: the first row, or `undefined`. -/
def firstRow : List Row → Value
  | [] => undef
  | r :: _ => .obj r

/-- String conversion of a value inside a template literal. -/
def Value.toStr : Value → String
  | .prim .undefined => "undefined"
  | .prim .null => "null"
  | .prim (.bool true) => "true"
  | .prim (.bool false) => "false"
  | .prim (.num n) => toString n
  | .prim (.str s) => s
  | .obj _ => "[object Object]"

/-! ## Errors -/

/-- The exceptions the model can raise, each with its message. -/
inductive JsError where
  | BadRequestError (msg : String)
  | NotFoundError (msg : String)
  | ReferenceError (msg : String)
  deriving DecidableEq, Repr

/-! ## The database collaborator -/

/-- A statement as handed to `db.query`: SQL text and parameter list. -/
abbrev Stmt := String × List Value

/-- The collaborator `db`: `query(sqlText, orderedParams) -> rows` over a store `σ`. -/
structure Db (σ : Type) where
  query : σ → String → List Value → List Row × σ

/-- The store together with the statements issued so far, oldest first. -/
structure World (σ : Type) where
  store : σ
  log : List Stmt

/-- Call `db.query(sql, params)` and record the statement. -/
def dbQuery {σ : Type} (db : Db σ) (w : World σ) (sql : String) (params : List Value) :
    List Row × World σ :=
  let r := db.query w.store sql params
  (r.1, { store := r.2, log := w.log ++ [(sql, params)] })

/-! ## `Job.findAll` -/

/-- The initial value of `query` in `findAll` (job.js lines 50-57). -/
def findAllSelect : String :=
  "SELECT j.id,\n                        j.title,\n                        j.salary,\n                        j.equity,\n                        j.company_handle,\n                        c.name\n                 FROM jobs j \n                   LEFT JOIN companies AS c ON c.handle = j.company_handle"

/-- State of `findAll` after line 76: `(whereExpressions, queryValues)`. -/
def findAllFilters (minSalary hasEquity title : Value) : List String × List Value :=
  let whereExpressions : List String := []
  let queryValues : List Value := []
  let s1 : List String × List Value :=
    if minSalary ≠ undef then
      let queryValues := queryValues ++ [minSalary]
      (whereExpressions ++ ["salary >= $" ++ toString queryValues.length], queryValues)
    else (whereExpressions, queryValues)
  let s2 : List String × List Value :=
    if hasEquity = .prim (.bool true) then
      (s1.1 ++ ["equity > 0"], s1.2)
    else s1
  let s3 : List String × List Value :=
    if title ≠ undef then
      let queryValues := s2.2 ++ [Value.prim (.str ("%" ++ title.toStr ++ "%"))]
      (s2.1 ++ ["title ILIKE $" ++ toString queryValues.length], queryValues)
    else s2
  s3

/-- The arguments of the call `db.query(query, queryValues)` at line 85. -/
def findAllQuery (minSalary hasEquity title : Value) : Stmt :=
  let f := findAllFilters minSalary hasEquity title
  let query := findAllSelect
  let query :=
    if f.1.length > 0 then query ++ " WHERE " ++ " AND ".intercalate f.1 else query
  let query := query ++ " ORDER BY title"
  (query, f.2)

/-- The method `Job.findAll({ minSalary, hasEquity, title } = {})`: returns `jobsRes.rows`. -/
def Job.findAll {σ : Type} (db : Db σ) (w : World σ) (criteria : Obj) :
    List Row × World σ :=
  let q := findAllQuery (criteria.get "minSalary") (criteria.get "hasEquity")
    (criteria.get "title")
  dbQuery db w q.1 q.2

/-! ## Placeholders of a statement -/

/-- Scanner state: outside a placeholder, or after `$` with the digits read so far. -/
structure Scan where
  found : List Nat
  cur : Option (Option Nat)

/-- Close the placeholder being read, if it has at least one digit. -/
def Scan.flush (s : Scan) : List Nat :=
  match s.cur with
  | some (some n) => s.found ++ [n]
  | _ => s.found

/-- One character of the scan. -/
def Scan.step (s : Scan) (c : Char) : Scan :=
  if c = '$' then { found := s.flush, cur := some none }
  else if c.isDigit then
    match s.cur with
    | some none => { found := s.found, cur := some (some (c.toNat - 48)) }
    | some (some n) => { found := s.found, cur := some (some (10 * n + (c.toNat - 48))) }
    | none => s
  else { found := s.flush, cur := none }

/-- The numbers of the positional placeholders `$n` of a SQL text, in text order. -/
def placeholders (sql : String) : List Nat :=
  (sql.data.foldl Scan.step { found := [], cur := none }).flush

/-! ## Truthiness -/

/-- Conversion to boolean of a condition: `if (v)`, `!v`. -/
def Value.truthy : Value → Bool
  | .prim .undefined => false
  | .prim .null => false
  | .prim (.bool b) => b
  | .prim (.num n) => n != 0
  | .prim (.str s) => s != ""
  | .obj _ => true

/-! ## `Job.create` -/

/-- Text of the duplicate check (job.js lines 17-19). -/
def createCheckSql : String :=
  "SELECT title\n           FROM jobs\n           WHERE title = $1 AND company_handle = $2"

/-- Text of the insert (job.js lines 26-29). -/
def createInsertSql : String :=
  "INSERT INTO jobs\n           (title, salary, equity, company_handle)\n           VALUES ($1, $2, $3, $4)\n           RETURNING id, title, salary, equity, company_handle"

/-- The method `Job.create({ title, salary, equity, company_handle })`. -/
def Job.create {σ : Type} (db : Db σ) (w : World σ) (data : Obj) :
    Except JsError Value × World σ :=
  let title := data.get "title"
  let salary := data.get "salary"
  let equity := data.get "equity"
  let company_handle := data.get "company_handle"
  let duplicateCheck := dbQuery db w createCheckSql [title, company_handle]
  if (firstRow duplicateCheck.1).truthy then
    (.error (.BadRequestError
      ("Duplicate job: " ++ title.toStr ++ " at company " ++ company_handle.toStr)),
     duplicateCheck.2)
  else
    let result := dbQuery db duplicateCheck.2 createInsertSql
      [title, salary, equity, company_handle]
    let company := firstRow result.1
    (.ok company, result.2)

/-! ## `Job.get` -/

/-- Text of the job lookup (job.js lines 98-104). -/
def getJobSql : String :=
  "SELECT id,\n                  title,\n                  salary,\n                  equity,\n                  company_handle\n           FROM jobs\n           WHERE id = $1"

/-- Text of the company lookup (job.js lines 112-118). -/
def getCompanySql : String :=
  "SELECT handle,\n              name,\n              description,\n              num_employees,\n              logo_url\n       FROM companies\n       WHERE handle = $1"

/-- The method `Job.get(id)`.  A row is an object, hence truthy: `!job` holds exactly when
`jobRes.rows` is empty. -/
def Job.get {σ : Type} (db : Db σ) (w : World σ) (id : Value) :
    Except JsError Obj × World σ :=
  let jobRes := dbQuery db w getJobSql [id]
  match jobRes.1 with
  | [] => (.error (.NotFoundError ("No job: " ++ id.toStr)), jobRes.2)
  | row :: _ =>
    let job := Row.toObj row
    let companiesRes := dbQuery db jobRes.2 getCompanySql [job.get "company_handle"]
    let job := job.delete "company_handle"
    let job := job.set "company" (firstRow companiesRes.1)
    (.ok job, companiesRes.2)

/-! ## `sqlForPartialUpdate` -/

/-- Modelled from the spec: the assignment fragments that `sqlForPartialUpdate` builds
(`helpers/sql.js` is not among the sources).  Spec section 4.1: each key, in iteration order,
gives `"<column>" = $<position>`, the column being `fieldNameMap[key]` if present, else the
key, and the position the 1-based index of the key. -/
def setFragments (keys : List String) (jsToSql : List (String × String)) : List String :=
  keys.enum.map (fun p =>
    "\"" ++ (match jsToSql.lookup p.2 with
              | some col => col
              | none => p.2) ++ "\" = $" ++ toString (p.1 + 1))

/-- Modelled from the spec: the function `sqlForPartialUpdate` of `helpers/sql.js`, which is
not among the sources (only its test `helpers/sql.test.js` and its caller `Job.update` are).
Spec section 4.1: an empty update request fails with InvalidArgument ("no data"); otherwise
each key, in iteration order, gives the fragment `"<column>" = $<position>`, where the column
is `fieldNameMap[key]` if present, else the key, and the position is the 1-based index of the
key; the set clause is the comma-joined list of the fragments (written `", "`, the usual
spelling in a `SET` clause) and the values are the request's values in the same order. -/
def sqlForPartialUpdate (dataToUpdate : Obj) (jsToSql : List (String × String)) :
    Except JsError (String × List Value) :=
  let keys := dataToUpdate.map (fun p => p.1)
  if keys.length = 0 then .error (.BadRequestError "no data")
  else
    let cols := setFragments keys jsToSql
    .ok (", ".intercalate cols, dataToUpdate.map (fun p => p.2))

/-- The column of a key under a field-name map: `m[k]` when `k` is in `m`, else `k`. -/
def columnOf (m : List (String × String)) (k : String) : String :=
  (m.lookup k).getD k

/-! ## `Job.update` -/

/-- The bindings visible in the body of `Job.update`: its parameters, its `const`
declarations, the module-level `const`s and class, and the CommonJS wrapper's names. -/
def updateScope : List String :=
  ["id", "data", "setCols", "values", "querySql", "result", "job",
   "db", "BadRequestError", "NotFoundError", "ExpressError", "sqlForPartialUpdate", "Job",
   "exports", "require", "module", "__filename", "__dirname"]

/-- Assignment `name = e` to a plain identifier in strict code (`"use strict"` at line 1, and
every class body): a `ReferenceError` when no binding of that name exists. -/
def assignStrict (scope : List String) (name : String) : Except JsError Unit :=
  if name ∈ scope then .ok () else .error (.ReferenceError (name ++ " is not defined"))

/-- Text of the update statement (job.js lines 141-148), with its closing double quote. -/
def updateSql (setCols constjobIdx : String) : String :=
  "UPDATE jobs \n                      SET " ++ setCols ++
  " \n                      WHERE id = " ++ constjobIdx ++
  " \n                      RETURNING id, \n                                title, \n                                salary, \n                                equity, \n                                company_handle\""

/-- The method `Job.update(id, data)`.  Line 139 reads `constjobIdx = "$" + ...`: an
assignment to the undeclared identifier `constjobIdx`, not a `const` declaration. -/
def Job.update {σ : Type} (db : Db σ) (w : World σ) (id : Value) (data : Obj) :
    Except JsError Value × World σ :=
  match sqlForPartialUpdate data [] with
  | .error e => (.error e, w)
  | .ok (setCols, values) =>
    match assignStrict updateScope "constjobIdx" with
    | .error e => (.error e, w)
    | .ok () =>
      let constjobIdx := "$" ++ toString (values.length + 1)
      let querySql := updateSql setCols constjobIdx
      let result := dbQuery db w querySql (values ++ [id])
      let job := firstRow result.1
      if !job.truthy then (.error (.NotFoundError ("No job: " ++ id.toStr)), result.2)
      else (.ok job, result.2)

/-! ## Reference definition of the filter (spec section 4.2) -/

/-- A criterion is present when its value is not `undefined`. -/
def present (v : Value) : Bool := v != undef

/-- The predicates of the filter in the fixed order salary, equity, title, each
value-bearing one with the next unused placeholder index. -/
def specPredicates (minSalary hasEquity title : Value) : List String :=
  (if present minSalary then ["salary >= $1"] else []) ++
  (if hasEquity = .prim (.bool true) then ["equity > 0"] else []) ++
  (if present title then
    [if present minSalary then "title ILIKE $2" else "title ILIKE $1"] else [])

/-- The bound values: the threshold, then the wrapped pattern. -/
def specValues (minSalary title : Value) : List Value :=
  (if present minSalary then [minSalary] else []) ++
  (if present title then [Value.prim (.str ("%" ++ title.toStr ++ "%"))] else [])

/-- The filter part of a statement for a list of predicates: nothing when there is no
predicate, else `WHERE` and the predicates joined with `AND`. -/
def whereClause : List String → String
  | [] => ""
  | p :: ps => " WHERE " ++ " AND ".intercalate (p :: ps)

/-- The filter part of the statement of `findAll`, from the reference predicates. -/
def specWhere (minSalary hasEquity title : Value) : String :=
  whereClause (specPredicates minSalary hasEquity title)

/-- The predicates as a function of which criteria are present. -/
def predsOf (a b c : Bool) : List String :=
  (if a then ["salary >= $1"] else []) ++ (if b then ["equity > 0"] else []) ++
  (if c then [if a then "title ILIKE $2" else "title ILIKE $1"] else [])

/-- The statement text as a function of which criteria are present. -/
def textOf (a b c : Bool) : String :=
  findAllSelect ++ whereClause (predsOf a b c) ++ " ORDER BY title"

/-! ## An in-memory store, for concrete runs -/

/-- The tables of the in-memory store. -/
structure Store where
  jobs : List Row
  companies : List Row

/-- Rows of a table whose column `col` holds the primitive of `v`. -/
def selectWhere (table : List Row) (col : String) (v : Value) : List Row :=
  table.filter (fun r => decide (Option.map Value.prim (r.lookup col) = some v))

/-- An in-memory database answering the statements of `Job.create` and `Job.get`: the
duplicate check selects the titles of the jobs with that title and company, the insert
appends a job whose id is the next number and returns it, the two lookups select by id and
by handle.  Any other statement returns no rows and leaves the store as it is. -/
def memDb : Db Store where
  query := fun store sql params =>
    if sql = createCheckSql then
      match params with
      | [t, c] =>
        (((selectWhere store.jobs "title" t).filter
            (fun r => decide (Option.map Value.prim (r.lookup "company_handle") = some c))).map
          (fun r => r.filter (fun p => p.1 == "title")), store)
      | _ => ([], store)
    else if sql = createInsertSql then
      match params with
      | [.prim t, .prim s, .prim e, .prim c] =>
        let row : Row := [("id", .num (store.jobs.length + 1)), ("title", t), ("salary", s),
          ("equity", e), ("company_handle", c)]
        ([row], { store with jobs := store.jobs ++ [row] })
      | _ => ([], store)
    else if sql = getJobSql then
      match params with
      | [id] => (selectWhere store.jobs "id" id, store)
      | _ => ([], store)
    else if sql = getCompanySql then
      match params with
      | [h] => (selectWhere store.companies "handle" h, store)
      | _ => ([], store)
    else ([], store)

/-- A store with the company `c1` and the job of the tests of `get` (job.test.js lines
87-103), under the id 1. -/
def testStore : Store where
  jobs := [[("id", .num 1), ("title", .str "Information officer"), ("salary", .num 200000),
    ("equity", .str "0.02"), ("company_handle", .str "c1")]]
  companies := [[("handle", .str "c1"), ("name", .str "C1"), ("description", .str "Desc1"),
    ("num_employees", .num 1), ("logo_url", .str "http://c1.img")]]

/-- A store with no job and the company `c1`. -/
def emptyJobs : Store where
  jobs := []
  companies := testStore.companies

/-- The job of the tests of `create` (job.test.js lines 24-29). -/
def newJob : Obj :=
  [("title", .prim (.str "Software Engineer")), ("salary", .prim (.num 200000)),
   ("equity", .prim (.str "0.064")), ("company_handle", .prim (.str "c1"))]

set_option maxRecDepth 100000

/-! ## Shared lemmas on the filter of `findAll` -/

theorem present_iff (v : Value) : present v = true ↔ v ≠ undef := by
  simp [present]

theorem findAllFilters_eq (minSalary hasEquity title : Value) :
    findAllFilters minSalary hasEquity title =
      (specPredicates minSalary hasEquity title, specValues minSalary title) := by
  by_cases hm : minSalary = undef <;> by_cases hh : hasEquity = .prim (.bool true) <;>
    by_cases ht : title = undef <;>
    simp [findAllFilters, specPredicates, specValues, present, hm, hh, ht] <;> decide

theorem findAllQuery_eq (minSalary hasEquity title : Value) :
    findAllQuery minSalary hasEquity title =
      (findAllSelect ++ specWhere minSalary hasEquity title ++ " ORDER BY title",
       specValues minSalary title) := by
  unfold findAllQuery
  rw [findAllFilters_eq]
  unfold specWhere whereClause
  cases h : specPredicates minSalary hasEquity title with
  | nil => rfl
  | cons p ps => simp [String.append_assoc]

theorem specPredicates_eq (minSalary hasEquity title : Value) :
    specPredicates minSalary hasEquity title =
      predsOf (present minSalary) (decide (hasEquity = .prim (.bool true))) (present title) := by
  simp [specPredicates, predsOf]

theorem findAllQuery_text (minSalary hasEquity title : Value) :
    (findAllQuery minSalary hasEquity title).1 =
      textOf (present minSalary) (decide (hasEquity = .prim (.bool true))) (present title) := by
  rw [findAllQuery_eq]
  simp only [specWhere, specPredicates_eq, textOf]

theorem findAllQuery_values (minSalary hasEquity title : Value) :
    (findAllQuery minSalary hasEquity title).2 = specValues minSalary title := by
  rw [findAllQuery_eq]

theorem textOf_placeholders (a b c : Bool) :
    placeholders (textOf a b c) =
      List.range' 1 ((if a then 1 else 0) + (if c then 1 else 0)) := by
  cases a <;> cases b <;> cases c <;> decide

theorem specValues_length (minSalary title : Value) :
    (specValues minSalary title).length =
      (if present minSalary then 1 else 0) + (if present title then 1 else 0) := by
  unfold specValues
  cases present minSalary <;> cases present title <;> rfl

theorem textOf_salary (b c : Bool) :
    ∃ pre post, textOf true b c = pre ++ "salary >= $" ++ toString 1 ++ " " ++ post := by
  refine ⟨findAllSelect ++ " WHERE ",
    String.mk ((textOf true b c).data.drop (findAllSelect ++ " WHERE salary >= $1 ").length), ?_⟩
  cases b <;> cases c <;> decide

theorem textOf_title (a b : Bool) :
    ∃ pre post, textOf a b true =
      pre ++ "title ILIKE $" ++ toString ((if a then 1 else 0) + 1) ++ " " ++ post := by
  refine ⟨String.mk ((textOf a b true).data.take
    ((textOf a b true).length - "title ILIKE $1 ORDER BY title".length)), "ORDER BY title", ?_⟩
  cases a <;> cases b <;> decide

theorem findAll_log {σ : Type} (db : Db σ) (w : World σ) (criteria : Obj) :
    (Job.findAll db w criteria).2.log = w.log ++
      [findAllQuery (criteria.get "minSalary") (criteria.get "hasEquity")
        (criteria.get "title")] := rfl

theorem findAll_rows {σ : Type} (db : Db σ) (w : World σ) (criteria : Obj) :
    Job.findAll db w criteria =
      dbQuery db w
        (findAllQuery (criteria.get "minSalary") (criteria.get "hasEquity")
          (criteria.get "title")).1
        (findAllQuery (criteria.get "minSalary") (criteria.get "hasEquity")
          (criteria.get "title")).2 := rfl

theorem present_congr {u v : Value} (h : u = undef ↔ v = undef) : present u = present v := by
  by_cases hu : u = undef
  · have hv : v = undef := h.mp hu
    simp [present, hu, hv]
  · have hv : ¬ v = undef := fun hv => hu (h.mpr hv)
    have h1 : (u != undef) = true := by simpa using hu
    have h2 : (v != undef) = true := by simpa using hv
    simp only [present, h1, h2]

/-! ## The claims on `Job.findAll` -/

/-- C1: the statement that `Job.findAll` hands to `db.query` holds exactly the placeholders
`$1..$n` in ascending order, `n` being the length of the parameter list; `n` counts the
present criteria among `minSalary` and `title` only (`hasEquity` adds nothing); the salary
predicate is written with the placeholder of the position of `minSalary` in the list, the
title predicate with that of the position of the wrapped title. -/
theorem findAll_placeholders_match_values {σ : Type} (db : Db σ) (w : World σ)
    (criteria : Obj) :
    ∃ sql params,
      (Job.findAll db w criteria).2.log = w.log ++ [(sql, params)] ∧
      placeholders sql = List.range' 1 params.length ∧
      params.length = (if criteria.get "minSalary" ≠ undef then 1 else 0) +
        (if criteria.get "title" ≠ undef then 1 else 0) ∧
      (criteria.get "minSalary" ≠ undef →
        ∃ k pre post, 1 ≤ k ∧ sql = pre ++ "salary >= $" ++ toString k ++ " " ++ post ∧
          params.get? (k - 1) = some (criteria.get "minSalary")) ∧
      (criteria.get "title" ≠ undef →
        ∃ k pre post, 1 ≤ k ∧ sql = pre ++ "title ILIKE $" ++ toString k ++ " " ++ post ∧
          params.get? (k - 1) =
            some (.prim (.str ("%" ++ (criteria.get "title").toStr ++ "%")))) := by
  refine ⟨(findAllQuery (criteria.get "minSalary") (criteria.get "hasEquity")
      (criteria.get "title")).1,
    (findAllQuery (criteria.get "minSalary") (criteria.get "hasEquity")
      (criteria.get "title")).2, findAll_log db w criteria, ?_, ?_, ?_, ?_⟩
  · rw [findAllQuery_text, findAllQuery_values, specValues_length, textOf_placeholders]
  · rw [findAllQuery_values, specValues_length]
    simp [present]
  · intro hm
    have hp : present (criteria.get "minSalary") = true := (present_iff _).mpr hm
    obtain ⟨pre, post, h⟩ := textOf_salary
      (decide (criteria.get "hasEquity" = .prim (.bool true))) (present (criteria.get "title"))
    refine ⟨1, pre, post, le_refl 1, ?_, ?_⟩
    · rw [findAllQuery_text, hp]
      exact h
    · rw [findAllQuery_values]
      simp [specValues, hp]
  · intro ht
    have hp : present (criteria.get "title") = true := (present_iff _).mpr ht
    obtain ⟨pre, post, h⟩ := textOf_title (present (criteria.get "minSalary"))
      (decide (criteria.get "hasEquity" = .prim (.bool true)))
    refine ⟨(if present (criteria.get "minSalary") then 1 else 0) + 1, pre, post,
      Nat.le_add_left 1 _, ?_, ?_⟩
    · rw [findAllQuery_text, hp]
      exact h
    · rw [findAllQuery_values]
      cases hq : present (criteria.get "minSalary") <;> simp [specValues, hp, hq]

/-- C1, on the criteria `{minSalary: 2, hasEquity: true, title: "eng"}`. -/
theorem findAll_placeholders_match_values_witness :
    Obj.get [("minSalary", .prim (.num 2)), ("hasEquity", .prim (.bool true)),
        ("title", .prim (.str "eng"))] "minSalary" ≠ undef ∧
    Obj.get [("minSalary", .prim (.num 2)), ("hasEquity", .prim (.bool true)),
        ("title", .prim (.str "eng"))] "title" ≠ undef ∧
    ∃ sql params,
      (Job.findAll memDb ⟨emptyJobs, []⟩ [("minSalary", .prim (.num 2)),
        ("hasEquity", .prim (.bool true)), ("title", .prim (.str "eng"))]).2.log =
          [] ++ [(sql, params)] ∧
      placeholders sql = List.range' 1 params.length ∧
      (∃ k pre post, 1 ≤ k ∧ sql = pre ++ "salary >= $" ++ toString k ++ " " ++ post ∧
          params.get? (k - 1) = some (.prim (.num 2))) ∧
      (∃ k pre post, 1 ≤ k ∧ sql = pre ++ "title ILIKE $" ++ toString k ++ " " ++ post ∧
          params.get? (k - 1) = some (.prim (.str "%eng%"))) := by
  obtain ⟨sql, params, h1, h2, _, h4, h5⟩ :=
    findAll_placeholders_match_values memDb ⟨emptyJobs, []⟩ [("minSalary", .prim (.num 2)),
      ("hasEquity", .prim (.bool true)), ("title", .prim (.str "eng"))]
  exact ⟨by decide, by decide, sql, params, h1, h2, h4 (by decide), h5 (by decide)⟩

/-- C7: the statement of `Job.findAll` is the selection, the reference filter and the
ordering, and its parameters are the reference values: predicates in the order salary,
equity, title, each value-bearing one with the next unused placeholder index; no `WHERE`
and no parameter when there is no predicate; `{minSalary: 2}` gives `salary >= $1` with
values `[2]`. -/
theorem findAll_filter_refines_spec {σ : Type} (db : Db σ) (w : World σ) (criteria : Obj) :
    (Job.findAll db w criteria).2.log = w.log ++
      [(findAllSelect ++
          specWhere (criteria.get "minSalary") (criteria.get "hasEquity")
            (criteria.get "title") ++ " ORDER BY title",
        specValues (criteria.get "minSalary") (criteria.get "title"))] ∧
    findAllFilters (criteria.get "minSalary") (criteria.get "hasEquity")
        (criteria.get "title") =
      (specPredicates (criteria.get "minSalary") (criteria.get "hasEquity")
        (criteria.get "title"),
       specValues (criteria.get "minSalary") (criteria.get "title")) ∧
    (specPredicates (criteria.get "minSalary") (criteria.get "hasEquity")
        (criteria.get "title") = [] →
      (Job.findAll db w criteria).2.log = w.log ++
        [(findAllSelect ++ " ORDER BY title", [])]) ∧
    findAllFilters (.prim (.num 2)) undef undef = (["salary >= $1"], [.prim (.num 2)]) ∧
    (Job.findAll db w [("minSalary", .prim (.num 2))]).2.log = w.log ++
      [(findAllSelect ++ " WHERE " ++ "salary >= $1" ++ " ORDER BY title",
        [.prim (.num 2)])] := by
  refine ⟨?_, findAllFilters_eq _ _ _, ?_, by decide, ?_⟩
  · rw [findAll_log, findAllQuery_eq]
  · intro h
    rw [findAll_log, findAllQuery_eq, specWhere, h]
    have hm : present (criteria.get "minSalary") = false := by
      cases hp : present (criteria.get "minSalary") with
      | false => rfl
      | true => simp [specPredicates, hp] at h
    have ht : present (criteria.get "title") = false := by
      cases hp : present (criteria.get "title") with
      | false => rfl
      | true => simp [specPredicates, hp] at h
    simp [specValues, hm, ht, whereClause]
  · rw [findAll_log]
    rfl

/-- C7, on the empty criteria: no predicate, so no `WHERE` and no parameter. -/
theorem findAll_filter_refines_spec_witness :
    specPredicates (Obj.get [] "minSalary") (Obj.get [] "hasEquity") (Obj.get [] "title") = [] ∧
    (Job.findAll memDb ⟨emptyJobs, []⟩ []).2.log = [] ++ [(findAllSelect ++ " ORDER BY title", [])] :=
  ⟨by decide, (findAll_filter_refines_spec memDb ⟨emptyJobs, []⟩ []).2.2.1 (by decide)⟩

/-- C8: a `hasEquity` other than `true` leaves the call of `Job.findAll` as it is with the
flag omitted; `hasEquity: true` leaves the parameter list as it is and adds the one
predicate `equity > 0` between the salary and title predicates, which keep their text. -/
theorem findAll_hasEquity_effect {σ : Type} (db : Db σ) (w : World σ) (c c' : Obj)
    (hm : c.get "minSalary" = c'.get "minSalary") (ht : c.get "title" = c'.get "title")
    (hOmitted : c'.get "hasEquity" = undef) :
    (c.get "hasEquity" ≠ .prim (.bool true) → Job.findAll db w c = Job.findAll db w c') ∧
    (c.get "hasEquity" = .prim (.bool true) →
      ∃ pre post params,
        (Job.findAll db w c').2.log = w.log ++
          [(findAllSelect ++ whereClause (pre ++ post) ++ " ORDER BY title", params)] ∧
        (Job.findAll db w c).2.log = w.log ++
          [(findAllSelect ++ whereClause (pre ++ ["equity > 0"] ++ post) ++ " ORDER BY title",
            params)] ∧
        "equity > 0" ∉ pre ++ post ∧ placeholders "equity > 0" = []) := by
  constructor
  · intro hne
    rw [findAll_rows, findAll_rows, hm, ht, hOmitted, findAllQuery_eq, findAllQuery_eq]
    simp [specWhere, specPredicates, hne]
  · intro he
    refine ⟨if present (c'.get "minSalary") then ["salary >= $1"] else [],
      if present (c'.get "title") then
        [if present (c'.get "minSalary") then "title ILIKE $2" else "title ILIKE $1"] else [],
      specValues (c'.get "minSalary") (c'.get "title"), ?_, ?_, ?_, by decide⟩
    · rw [findAll_log, hOmitted, findAllQuery_eq]
      simp [specWhere, specPredicates]
    · rw [findAll_log, hm, ht, he, findAllQuery_eq]
      simp [specWhere, specPredicates]
    · cases present (c'.get "minSalary") <;> cases present (c'.get "title") <;> decide

/-- C8, on `{minSalary: 2, hasEquity: true, title: "eng"}` against `{minSalary: 2,
title: "eng"}`. -/
theorem findAll_hasEquity_effect_witness :
    ∃ pre post params,
      (Job.findAll memDb ⟨emptyJobs, []⟩ [("minSalary", .prim (.num 2)),
          ("title", .prim (.str "eng"))]).2.log = [] ++
        [(findAllSelect ++ whereClause (pre ++ post) ++ " ORDER BY title", params)] ∧
      (Job.findAll memDb ⟨emptyJobs, []⟩ [("minSalary", .prim (.num 2)),
          ("hasEquity", .prim (.bool true)), ("title", .prim (.str "eng"))]).2.log = [] ++
        [(findAllSelect ++ whereClause (pre ++ ["equity > 0"] ++ post) ++ " ORDER BY title",
          params)] ∧
      "equity > 0" ∉ pre ++ post ∧ placeholders "equity > 0" = [] :=
  (findAll_hasEquity_effect memDb ⟨emptyJobs, []⟩
    [("minSalary", .prim (.num 2)), ("hasEquity", .prim (.bool true)),
      ("title", .prim (.str "eng"))]
    [("minSalary", .prim (.num 2)), ("title", .prim (.str "eng"))]
    (by decide) (by decide) (by decide)).2 (by decide)

/-- C9: two criteria objects in which the same criteria are present make `Job.findAll`
issue the same SQL text; the values of `minSalary` and `title` go to the parameter list
only. -/
theorem findAll_text_independent_of_values {σ τ : Type} (db : Db σ) (w : World σ)
    (db' : Db τ) (w' : World τ) (c c' : Obj)
    (hm : c.get "minSalary" = undef ↔ c'.get "minSalary" = undef)
    (he : c.get "hasEquity" = .prim (.bool true) ↔ c'.get "hasEquity" = .prim (.bool true))
    (ht : c.get "title" = undef ↔ c'.get "title" = undef) :
    ∃ sql,
      (Job.findAll db w c).2.log = w.log ++
        [(sql, specValues (c.get "minSalary") (c.get "title"))] ∧
      (Job.findAll db' w' c').2.log = w'.log ++
        [(sql, specValues (c'.get "minSalary") (c'.get "title"))] := by
  refine ⟨textOf (present (c.get "minSalary"))
    (decide (c.get "hasEquity" = .prim (.bool true))) (present (c.get "title")), ?_, ?_⟩
  · rw [findAll_log, ← findAllQuery_text, ← findAllQuery_values _ (c.get "hasEquity")]
  · rw [findAll_log, present_congr hm, present_congr ht, decide_eq_decide.mpr he,
      ← findAllQuery_text, ← findAllQuery_values _ (c'.get "hasEquity")]

/-- C9, on `{minSalary: 2, title: "eng"}` against `{minSalary: 70000, title: "x OR 1=1"}`. -/
theorem findAll_text_independent_of_values_witness :
    ∃ sql,
      (Job.findAll memDb ⟨emptyJobs, []⟩ [("minSalary", .prim (.num 2)),
          ("title", .prim (.str "eng"))]).2.log = [] ++
        [(sql, [.prim (.num 2), .prim (.str "%eng%")])] ∧
      (Job.findAll memDb ⟨emptyJobs, []⟩ [("minSalary", .prim (.num 70000)),
          ("title", .prim (.str "x OR 1=1"))]).2.log = [] ++
        [(sql, [.prim (.num 70000), .prim (.str "%x OR 1=1%")])] :=
  findAll_text_independent_of_values memDb ⟨emptyJobs, []⟩ memDb ⟨emptyJobs, []⟩
    [("minSalary", .prim (.num 2)), ("title", .prim (.str "eng"))]
    [("minSalary", .prim (.num 70000)), ("title", .prim (.str "x OR 1=1"))]
    (by decide) (by decide) (by decide)

/-- C10: `Job.findAll` issues exactly one statement, whose text is the selection, the
optional `WHERE` clause and then ` ORDER BY title` at the end, and returns the rows of that
statement as the database gave them; with no criteria the statement is the selection
followed by ` ORDER BY title`, with no parameter. -/
theorem findAll_orders_by_title {σ : Type} (db : Db σ) (w : World σ) (criteria : Obj) :
    (∃ sql params wherePart,
      (Job.findAll db w criteria).2.log = w.log ++ [(sql, params)] ∧
      sql = findAllSelect ++ wherePart ++ " ORDER BY title" ∧
      " ORDER BY title".data <:+ sql.data ∧
      (wherePart = "" ∨ ∃ p ps, wherePart = " WHERE " ++ " AND ".intercalate (p :: ps)) ∧
      (Job.findAll db w criteria).1 = (db.query w.store sql params).1 ∧
      (Job.findAll db w criteria).2.store = (db.query w.store sql params).2) ∧
    (Job.findAll db w []).2.log = w.log ++ [(findAllSelect ++ " ORDER BY title", [])] ∧
    (Job.findAll db w []).1 =
      (db.query w.store (findAllSelect ++ " ORDER BY title") []).1 := by
  refine ⟨⟨_, specValues (criteria.get "minSalary") (criteria.get "title"),
    specWhere (criteria.get "minSalary") (criteria.get "hasEquity") (criteria.get "title"),
    ?_, rfl, ?_, ?_, ?_, ?_⟩, rfl, rfl⟩
  · rw [findAll_log, findAllQuery_eq]
  · exact ⟨(findAllSelect ++ specWhere (criteria.get "minSalary") (criteria.get "hasEquity")
      (criteria.get "title")).data, by simp⟩
  · unfold specWhere whereClause
    cases specPredicates (criteria.get "minSalary") (criteria.get "hasEquity")
        (criteria.get "title") with
    | nil => exact Or.inl rfl
    | cons p ps => exact Or.inr ⟨p, ps, rfl⟩
  · rw [findAll_rows, findAllQuery_eq]
    rfl
  · rw [findAll_rows, findAllQuery_eq]
    rfl

/-! ## The claims on `sqlForPartialUpdate` and `Job.update` -/

theorem sqlForPartialUpdate_cols (keys : List String) (m : List (String × String)) (i : Nat)
    (h : i < keys.length) :
    (setFragments keys m).get? i =
      some ("\"" ++ columnOf m (keys.get ⟨i, h⟩) ++ "\" = $" ++ toString (i + 1)) := by
  unfold setFragments
  rw [List.get?_eq_getElem?, List.getElem?_map, List.getElem?_enum, List.getElem?_eq_getElem h]
  simp only [Option.map_some', columnOf, List.get_eq_getElem]
  cases m.lookup keys[i] <;> rfl

/-- C2: for a non-empty update request with keys `k_1..k_n` and a field-name map `m`,
`sqlForPartialUpdate` returns as `setCols` the fragments `"c_i" = $i` for `i = 1..n` joined
with `", "`, `c_i` being `m[k_i]` when `k_i` is in `m` and `k_i` otherwise, and as `values`
the values of the request in the same order; the request `{obj1: "ver1"}` with the map
`{obj1: "obj1", obj2: "obj2"}` gives `"obj1" = $1` and `["ver1"]`. -/
theorem sqlForPartialUpdate_spec (data : Obj) (m : List (String × String))
    (hne : data ≠ []) :
    (∃ cols : List String,
      sqlForPartialUpdate data m = .ok (", ".intercalate cols, data.map (fun p => p.2)) ∧
      cols.length = data.length ∧
      ∀ (i : Nat) (h : i < data.length),
        cols.get? i =
          some ("\"" ++ columnOf m (List.get data ⟨i, h⟩).1 ++ "\" = $" ++ toString (i + 1))) ∧
    (∀ k, k ∈ m.map (fun p => p.1) → ∃ c, (k, c) ∈ m ∧ columnOf m k = c) ∧
    (∀ k, k ∉ m.map (fun p => p.1) → columnOf m k = k) ∧
    sqlForPartialUpdate [("obj1", .prim (.str "ver1"))] [("obj1", "obj1"), ("obj2", "obj2")] =
      .ok ("\"obj1\" = $1", [.prim (.str "ver1")]) := by
  refine ⟨⟨setFragments (data.map (fun p => p.1)) m, ?_, ?_, ?_⟩, ?_, ?_, rfl⟩
  · unfold sqlForPartialUpdate
    have hlen : (data.map (fun p => p.1)).length ≠ 0 := by
      simpa using hne
    simp only [hlen, if_false]
  · simp [setFragments]
  · intro i h
    have h' : i < (data.map (fun p => p.1)).length := by simpa using h
    rw [sqlForPartialUpdate_cols _ m i h']
    simp
  · intro k hk
    induction m with
    | nil => simp at hk
    | cons a rest ih =>
      by_cases hka : k = a.1
      · refine ⟨a.2, ?_, ?_⟩
        · simp [hka]
        · simp [columnOf, List.lookup, hka]
      · have hk' : k ∈ rest.map (fun p => p.1) := by
          simpa [hka] using hk
        obtain ⟨c, hc, hcol⟩ := ih hk'
        refine ⟨c, List.mem_cons_of_mem _ hc, ?_⟩
        have : (k == a.1) = false := by simpa using hka
        simpa [columnOf, List.lookup, this] using hcol
  · intro k hk
    induction m with
    | nil => rfl
    | cons a rest ih =>
      have hka : ¬ k = a.1 := fun h => hk (by simp [h])
      have hk' : k ∉ rest.map (fun p => p.1) := fun h => hk (by simp [List.mem_map] at h ⊢; exact Or.inr h)
      have : (k == a.1) = false := by simpa using hka
      simpa [columnOf, List.lookup, this] using ih hk'

/-- C2, on the request `{title: "t", salary: 1}` with the map `{title: "job_title"}`. -/
theorem sqlForPartialUpdate_spec_witness :
    ([("title", .prim (.str "t")), ("salary", .prim (.num 1))] : Obj) ≠ [] ∧
    ∃ cols : List String,
      sqlForPartialUpdate [("title", .prim (.str "t")), ("salary", .prim (.num 1))]
          [("title", "job_title")] =
        .ok (", ".intercalate cols, [.prim (.str "t"), .prim (.num 1)]) ∧
      cols.length = 2 :=
  ⟨by decide,
    (sqlForPartialUpdate_spec [("title", .prim (.str "t")), ("salary", .prim (.num 1))]
      [("title", "job_title")] (by decide)).1.imp (fun _ h => ⟨h.1, h.2.1⟩)⟩

/-- C3: `Job.update(id, {})` fails with the `BadRequestError` of `sqlForPartialUpdate`,
before any statement is issued: the store and the log of statements are unchanged. -/
theorem update_empty_request_fails {σ : Type} (db : Db σ) (w : World σ) (id : Value)
    (m : List (String × String)) :
    sqlForPartialUpdate [] m = .error (.BadRequestError "no data") ∧
    Job.update db w id [] = (.error (.BadRequestError "no data"), w) ∧
    (Job.update db w id []).2.log = w.log ∧ (Job.update db w id []).2.store = w.store :=
  ⟨rfl, rfl, rfl, rfl⟩

/-- C4 (the code at `update(0, {salary: 1})`): line 139 assigns to the undeclared
`constjobIdx`, so the call raises a `ReferenceError` and issues no statement, whatever the
database holds; neither `NotFoundError` nor an updated row is produced. -/
theorem update_raises_reference_error {σ : Type} (db : Db σ) (w : World σ) :
    Job.update db w (.prim (.num 0)) [("salary", .prim (.num 1))] =
      (.error (.ReferenceError "constjobIdx is not defined"), w) ∧
    sqlForPartialUpdate [("salary", .prim (.num 1))] [] =
      .ok ("\"salary\" = $1", [.prim (.num 1)]) :=
  ⟨rfl, rfl⟩

/-! ## Objects -/

theorem Obj.get_set_self (o : Obj) (k : String) (v : Value) : (Obj.set o k v).get k = v := by
  induction o with
  | nil => simp [Obj.set, Obj.get, List.lookup]
  | cons a rest ih =>
    obtain ⟨ka, va⟩ := a
    by_cases h : ka = k
    · simp [Obj.set, Obj.get, List.lookup, h]
    · have hb : (k == ka) = false := by simpa using fun e : k = ka => h e.symm
      simp only [Obj.set, h, if_false]
      simpa [Obj.get, List.lookup, hb] using ih

theorem Obj.lookup_set_ne (o : Obj) (k k' : String) (v : Value) (hne : k' ≠ k) :
    List.lookup k' (Obj.set o k v) = List.lookup k' o := by
  induction o with
  | nil =>
    have hb : (k' == k) = false := by simpa using hne
    simp [Obj.set, List.lookup, hb]
  | cons a rest ih =>
    obtain ⟨ka, va⟩ := a
    by_cases h : ka = k
    · have hb : (k' == k) = false := by simpa using hne
      simp [Obj.set, List.lookup, h, hb]
    · simp only [Obj.set, h, if_false]
      cases hb : k' == ka <;> simp [List.lookup, hb, ih]

theorem Obj.lookup_delete_self (o : Obj) (k : String) :
    List.lookup k (Obj.delete o k) = none := by
  induction o with
  | nil => rfl
  | cons a rest ih =>
    obtain ⟨ka, va⟩ := a
    by_cases h : ka = k
    · simpa [Obj.delete, List.filter, h] using ih
    · have hb : (k == ka) = false := by simpa using fun e : k = ka => h e.symm
      have hf : (ka != k) = true := by simpa using h
      simp only [Obj.delete, List.filter, hf, List.lookup, hb]
      exact ih

theorem Obj.lookup_delete_ne (o : Obj) (k k' : String) (hne : k' ≠ k) :
    List.lookup k' (Obj.delete o k) = List.lookup k' o := by
  induction o with
  | nil => rfl
  | cons a rest ih =>
    obtain ⟨ka, va⟩ := a
    by_cases h : ka = k
    · have hb : (k' == ka) = false := by simpa [h] using hne
      have hf : (ka != k) = false := by simpa using h
      simp only [Obj.delete, List.filter, hf, List.lookup, hb]
      exact ih
    · have hf : (ka != k) = true := by simpa using h
      simp only [Obj.delete, List.filter, hf, List.lookup]
      cases hb : k' == ka
      · exact ih
      · rfl

theorem firstRow_truthy (rows : List Row) : (firstRow rows).truthy = true ↔ rows ≠ [] := by
  cases rows <;> simp [firstRow, Value.truthy]

/-! ## The claims on `Job.get` and `Job.create` -/

theorem get_of_no_row {σ : Type} (db : Db σ) (w : World σ) (id : Value)
    (h : (db.query w.store getJobSql [id]).1 = []) :
    Job.get db w id =
      (.error (.NotFoundError ("No job: " ++ id.toStr)),
        { store := (db.query w.store getJobSql [id]).2, log := w.log ++ [(getJobSql, [id])] }) := by
  simp only [Job.get, dbQuery, h]

theorem get_of_row {σ : Type} (db : Db σ) (w : World σ) (id : Value) (row : Row)
    (rest : List Row) (h : (db.query w.store getJobSql [id]).1 = row :: rest) :
    Job.get db w id =
      (.ok (Obj.set (Obj.delete (Row.toObj row) "company_handle") "company"
          (firstRow (db.query (db.query w.store getJobSql [id]).2 getCompanySql
            [Obj.get (Row.toObj row) "company_handle"]).1)),
        { store := (db.query (db.query w.store getJobSql [id]).2 getCompanySql
            [Obj.get (Row.toObj row) "company_handle"]).2,
          log := w.log ++ [(getJobSql, [id])] ++
            [(getCompanySql, [Obj.get (Row.toObj row) "company_handle"])] }) := by
  simp only [Job.get, dbQuery, h]

/-- C5: `Job.get(id)` fails with `NotFoundError` exactly when the job lookup returns no row,
and then only the lookup has been issued; otherwise it returns the first row of the lookup
without its `company_handle` property, its other properties (`id`, `title`, `salary`,
`equity`) unchanged, and with a `company` property holding the first row of the companies
lookup made with the row's `company_handle`. -/
theorem get_spec {σ : Type} (db : Db σ) (w : World σ) (id : Value) :
    ((∃ msg, (Job.get db w id).1 = .error (.NotFoundError msg)) ↔
      (db.query w.store getJobSql [id]).1 = []) ∧
    ((db.query w.store getJobSql [id]).1 = [] →
      (Job.get db w id).2.log = w.log ++ [(getJobSql, [id])] ∧
      (Job.get db w id).2.store = (db.query w.store getJobSql [id]).2) ∧
    (∀ row rest, (db.query w.store getJobSql [id]).1 = row :: rest →
      ∃ job, (Job.get db w id).1 = .ok job ∧
        List.lookup "company_handle" job = none ∧
        Obj.get job "company" =
          firstRow (db.query (db.query w.store getJobSql [id]).2 getCompanySql
            [Obj.get (Row.toObj row) "company_handle"]).1 ∧
        (∀ k, k ≠ "company_handle" → k ≠ "company" →
          Obj.get job k = Obj.get (Row.toObj row) k) ∧
        (∀ k ∈ ["id", "title", "salary", "equity"],
          Obj.get job k = Obj.get (Row.toObj row) k) ∧
        (Job.get db w id).2.log = w.log ++ [(getJobSql, [id]),
          (getCompanySql, [Obj.get (Row.toObj row) "company_handle"])]) := by
  have hrow : ∀ row rest, (db.query w.store getJobSql [id]).1 = row :: rest →
      ∃ job, (Job.get db w id).1 = .ok job ∧
        List.lookup "company_handle" job = none ∧
        Obj.get job "company" =
          firstRow (db.query (db.query w.store getJobSql [id]).2 getCompanySql
            [Obj.get (Row.toObj row) "company_handle"]).1 ∧
        (∀ k, k ≠ "company_handle" → k ≠ "company" →
          Obj.get job k = Obj.get (Row.toObj row) k) ∧
        (∀ k ∈ ["id", "title", "salary", "equity"],
          Obj.get job k = Obj.get (Row.toObj row) k) ∧
        (Job.get db w id).2.log = w.log ++ [(getJobSql, [id]),
          (getCompanySql, [Obj.get (Row.toObj row) "company_handle"])] := by
    intro row rest h
    have hk : ∀ k, k ≠ "company_handle" → k ≠ "company" →
        Obj.get (Obj.set (Obj.delete (Row.toObj row) "company_handle") "company"
          (firstRow (db.query (db.query w.store getJobSql [id]).2 getCompanySql
            [Obj.get (Row.toObj row) "company_handle"]).1)) k = Obj.get (Row.toObj row) k := by
      intro k h1 h2
      unfold Obj.get
      rw [Obj.lookup_set_ne _ _ _ _ h2, Obj.lookup_delete_ne _ _ _ h1]
    refine ⟨_, by rw [get_of_row db w id row rest h], ?_, Obj.get_set_self _ _ _, hk, ?_, ?_⟩
    · rw [Obj.lookup_set_ne _ _ _ _ (by decide), Obj.lookup_delete_self]
    · intro k hmem
      simp only [List.mem_cons, List.mem_singleton, List.not_mem_nil, or_false] at hmem
      rcases hmem with rfl | rfl | rfl | rfl <;> exact hk _ (by decide) (by decide)
    · rw [get_of_row db w id row rest h]
      simp
  refine ⟨⟨?_, ?_⟩, ?_, hrow⟩
  · rintro ⟨msg, hmsg⟩
    cases hq : (db.query w.store getJobSql [id]).1 with
    | nil => rfl
    | cons row rest =>
      obtain ⟨job, hjob, _⟩ := hrow row rest hq
      rw [hjob] at hmsg
      cases hmsg
  · intro h
    exact ⟨_, by rw [get_of_no_row db w id h]⟩
  · intro h
    rw [get_of_no_row db w id h]
    exact ⟨rfl, rfl⟩

/-- C5, on the store of the tests: id 1 is the job `Information officer` at `c1`. -/
theorem get_spec_witness :
    (memDb.query testStore getJobSql [.prim (.num 1)]).1 =
      [("id", .num 1), ("title", .str "Information officer"), ("salary", .num 200000),
        ("equity", .str "0.02"), ("company_handle", .str "c1")] :: [] ∧
    ∃ job, (Job.get memDb ⟨testStore, []⟩ (.prim (.num 1))).1 = .ok job ∧
      List.lookup "company_handle" job = none ∧
      Obj.get job "company" = .obj [("handle", .str "c1"), ("name", .str "C1"),
        ("description", .str "Desc1"), ("num_employees", .num 1),
        ("logo_url", .str "http://c1.img")] ∧
      Obj.get job "title" = .prim (.str "Information officer") := by
  have hq : (memDb.query testStore getJobSql [.prim (.num 1)]).1 =
      [("id", .num 1), ("title", .str "Information officer"), ("salary", .num 200000),
        ("equity", .str "0.02"), ("company_handle", .str "c1")] :: [] := by decide
  obtain ⟨job, h1, h2, h3, _, h5, _⟩ :=
    (get_spec memDb ⟨testStore, []⟩ (.prim (.num 1))).2.2 _ _ hq
  refine ⟨hq, job, h1, h2, ?_, ?_⟩
  · rw [h3]
    decide
  · rw [h5 "title" (by decide)]
    decide

theorem create_of_duplicate {σ : Type} (db : Db σ) (w : World σ) (data : Obj)
    (h : (db.query w.store createCheckSql
      [data.get "title", data.get "company_handle"]).1 ≠ []) :
    Job.create db w data =
      (.error (.BadRequestError ("Duplicate job: " ++ (data.get "title").toStr ++
          " at company " ++ (data.get "company_handle").toStr)),
        { store := (db.query w.store createCheckSql
            [data.get "title", data.get "company_handle"]).2,
          log := w.log ++ [(createCheckSql, [data.get "title", data.get "company_handle"])] }) := by
  have ht := (firstRow_truthy _).mpr h
  simp only [Job.create, dbQuery, ht, if_true]

theorem create_of_fresh {σ : Type} (db : Db σ) (w : World σ) (data : Obj)
    (h : (db.query w.store createCheckSql
      [data.get "title", data.get "company_handle"]).1 = []) :
    Job.create db w data =
      (.ok (firstRow (db.query
          (db.query w.store createCheckSql [data.get "title", data.get "company_handle"]).2
          createInsertSql
          [data.get "title", data.get "salary", data.get "equity",
            data.get "company_handle"]).1),
        { store := (db.query
            (db.query w.store createCheckSql [data.get "title", data.get "company_handle"]).2
            createInsertSql
            [data.get "title", data.get "salary", data.get "equity",
              data.get "company_handle"]).2,
          log := w.log ++ [(createCheckSql, [data.get "title", data.get "company_handle"])] ++
            [(createInsertSql, [data.get "title", data.get "salary", data.get "equity",
              data.get "company_handle"])] }) := by
  simp [Job.create, dbQuery, h, firstRow, Value.truthy]

/-- C6: `Job.create` fails with the duplicate `BadRequestError` exactly when the duplicate
check for (title, company_handle) returns a row, and then only the check has been issued;
otherwise it issues the check and then one `INSERT` with the parameters title, salary,
equity, company_handle in that order, and returns the first row of the insert.  So when the
store left by a first call answers the duplicate check of that title and company with a
row, a second call with the same title and company fails with `BadRequestError`. -/
theorem create_spec {σ : Type} (db : Db σ) (w : World σ) (data : Obj) :
    ((∃ msg, (Job.create db w data).1 = .error (.BadRequestError msg)) ↔
      (db.query w.store createCheckSql
        [data.get "title", data.get "company_handle"]).1 ≠ []) ∧
    ((db.query w.store createCheckSql [data.get "title", data.get "company_handle"]).1 ≠ [] →
      (Job.create db w data).2.log = w.log ++
        [(createCheckSql, [data.get "title", data.get "company_handle"])]) ∧
    ((db.query w.store createCheckSql [data.get "title", data.get "company_handle"]).1 = [] →
      (Job.create db w data).1 = .ok (firstRow (db.query
          (db.query w.store createCheckSql [data.get "title", data.get "company_handle"]).2
          createInsertSql
          [data.get "title", data.get "salary", data.get "equity",
            data.get "company_handle"]).1) ∧
      (Job.create db w data).2.log = w.log ++
        [(createCheckSql, [data.get "title", data.get "company_handle"]),
         (createInsertSql, [data.get "title", data.get "salary", data.get "equity",
            data.get "company_handle"])]) ∧
    (∀ data2 : Obj, data2.get "title" = data.get "title" →
      data2.get "company_handle" = data.get "company_handle" →
      (db.query (Job.create db w data).2.store createCheckSql
        [data.get "title", data.get "company_handle"]).1 ≠ [] →
      ∃ msg, (Job.create db (Job.create db w data).2 data2).1 =
        .error (.BadRequestError msg)) := by
  refine ⟨⟨?_, ?_⟩, ?_, ?_, ?_⟩
  · rintro ⟨msg, hmsg⟩ hnil
    rw [create_of_fresh db w data hnil] at hmsg
    cases hmsg
  · intro h
    exact ⟨_, by rw [create_of_duplicate db w data h]⟩
  · intro h
    rw [create_of_duplicate db w data h]
  · intro h
    rw [create_of_fresh db w data h]
    exact ⟨rfl, by simp⟩
  · intro data2 ht hc h
    have h2 : (db.query (Job.create db w data).2.store createCheckSql
        [data2.get "title", data2.get "company_handle"]).1 ≠ [] := by
      rw [ht, hc]
      exact h
    exact ⟨_, by rw [create_of_duplicate db (Job.create db w data).2 data2 h2]⟩

/-- C6, on the in-memory store with no job: the first `create` of the job of the tests
inserts it, the second fails. -/
theorem create_spec_witness :
    (memDb.query emptyJobs createCheckSql
      [newJob.get "title", newJob.get "company_handle"]).1 = [] ∧
    (memDb.query (Job.create memDb ⟨emptyJobs, []⟩ newJob).2.store createCheckSql
      [newJob.get "title", newJob.get "company_handle"]).1 ≠ [] ∧
    (Job.create memDb ⟨emptyJobs, []⟩ newJob).1 =
      .ok (.obj [("id", .num 1), ("title", .str "Software Engineer"), ("salary", .num 200000),
        ("equity", .str "0.064"), ("company_handle", .str "c1")]) ∧
    ∃ msg, (Job.create memDb (Job.create memDb ⟨emptyJobs, []⟩ newJob).2 newJob).1 =
      .error (.BadRequestError msg) := by
  have h1 : (memDb.query emptyJobs createCheckSql
      [newJob.get "title", newJob.get "company_handle"]).1 = [] := by decide
  have h2 : (memDb.query (Job.create memDb ⟨emptyJobs, []⟩ newJob).2.store createCheckSql
      [newJob.get "title", newJob.get "company_handle"]).1 ≠ [] := by decide
  refine ⟨h1, h2, ?_, (create_spec memDb ⟨emptyJobs, []⟩ newJob).2.2.2 newJob rfl rfl h2⟩
  rw [((create_spec memDb ⟨emptyJobs, []⟩ newJob).2.2.1 h1).1]
  rfl

end Jobly
